import Mathlib

/-!
Verification of the tool registry and dispatch engine of the
`mcp-arangodb-async` repository, shallowly embedded in Lean 4.

The embedding translates:
  * `src/mcp_arangodb_async/entry.py` — registry population, `server_lifespan`
    startup retry loop, `handle_list_tools`, `_invoke_handler`, `call_tool`;
  * `src/mcp_arangodb/handlers.py` — the `handle_errors` decorator and
    `handle_bulk_insert`;
  * `src/mcp_arangodb/models.py` — the Pydantic argument models, modelled as
    field-spec lists validated by `validateArgs` (Pydantic v2 semantics:
    lax-mode type coercion per the v2 conversion table, validation alias
    looked up before the field name under `populate_by_name=True`, numeric
    `ge` bounds, all field errors collected, `model_dump` with
    `exclude_none=True` dropping `None`-valued fields).

Python exceptions are modelled by the `PyExc` type and fallible calls return
`Except PyExc`.  Database handles are opaque and modelled by `Nat`; the result
of `get_client_and_db` (success or raised exception) is an `Option DB` in the
environment.  Dispatch is instrumented: `DispatchOut` records, besides the
JSON response and the updated cached handle, how many connection attempts were
made, whether validation ran, whether the handler was invoked, and which
arguments and handle were delivered to it.
-/

namespace McpArango

/-- JSON values as exchanged on the wire and inside handlers. -/
inductive Json where
  | null : Json
  | bool : Bool → Json
  | num : Int → Json
  | str : String → Json
  | arr : List Json → Json
  | obj : List (String × Json) → Json

/-- Opaque database handle (`StandardDatabase` in the source). -/
abbrev DB := Nat

/-- Python exception values relevant to the dispatch core. -/
inductive PyExc where
  | keyError : String → PyExc
  | arangoError : String → PyExc
  | typeError : String → PyExc
  | valueError : String → PyExc
  | other : String → String → PyExc
deriving DecidableEq

/-- `type(e).__name__` for a modelled exception. -/
def PyExc.typeName : PyExc → String
  | .keyError _ => "KeyError"
  | .arangoError _ => "ArangoError"
  | .typeError _ => "TypeError"
  | .valueError _ => "ValueError"
  | .other t _ => t

/-- A single quote character, used by `str(KeyError(k))` which renders as `'k'`. -/
def squote : String := String.singleton (Char.ofNat 39)

/-- `str(e)` for a modelled exception. -/
def PyExc.msg : PyExc → String
  | .keyError k => squote ++ k ++ squote
  | .arangoError m => m
  | .typeError m => m
  | .valueError m => m
  | .other _ m => m

/-- Whether the exception is a `TypeError` (the class caught by
`_invoke_handler`). -/
def PyExc.isTypeError : PyExc → Bool
  | .typeError _ => true
  | _ => false

/-! ### Schema model (Pydantic argument models, `models.py`) -/

/-- The declared types occurring in the argument models of `models.py`. -/
inductive JType where
  | str : JType
  | int : JType
  | bool : JType
  | obj : JType
  | strList : JType
  | objList : JType
  | any : JType

/-- Whether a JSON value is `null`. -/
def Json.isNull : Json → Bool
  | .null => true
  | _ => false

/-- Whether a JSON value is a string. -/
def Json.isStr : Json → Bool
  | .str _ => true
  | _ => false

/-- Whether a JSON value is an object. -/
def Json.isObj : Json → Bool
  | .obj _ => true
  | _ => false

/-- Accumulate a decimal number over characters, rejecting at the first
non-digit. -/
def natFromDigitsAux (acc : Nat) : List Char → Option Nat
  | [] => some acc
  | c :: cs =>
    if c.isDigit then natFromDigitsAux (acc * 10 + (c.toNat - 48)) cs else none

/-- `int(s)` on a decimal string: an optional leading minus sign followed by
at least one digit; anything else is rejected. -/
def intFromStr (s : String) : Option Int :=
  match s.data with
  | [] => none
  | c :: cs =>
    if c = Char.ofNat 45 then
      match cs with
      | [] => none
      | _ => (natFromDigitsAux 0 cs).map (fun n => -(n : Int))
    else (natFromDigitsAux 0 (c :: cs)).map (fun n => (n : Int))

/-- Pydantic v2 lax (default) coercion of a string to a boolean: the
documented truthy/falsy string forms, case-insensitively; anything else is
rejected. -/
def boolFromStr (s : String) : Option Json :=
  let t := s.toLower
  if t ∈ ["true", "t", "yes", "y", "on", "1"] then some (Json.bool true)
  else if t ∈ ["false", "f", "no", "n", "off", "0"] then some (Json.bool false)
  else none

/-- Pydantic v2 lax (default) validation of a JSON value against a declared
field type: the value accepted for the field, after coercion, or `none` when
the input is rejected.  Per the v2 conversion table: `int` accepts integers
and integer-valued numeric strings but not booleans; `bool` accepts booleans,
0/1 and the usual truthy/falsy strings; `str` accepts only strings (numbers
are not stringified); mappings and lists are not coerced from other shapes. -/
def coerceType : JType → Json → Option Json
  | .str, .str s => some (.str s)
  | .int, .num n => some (.num n)
  | .int, .str s => (intFromStr s).map Json.num
  | .bool, .bool b => some (.bool b)
  | .bool, .num n =>
    if n = 0 then some (.bool false) else if n = 1 then some (.bool true) else none
  | .bool, .str s => boolFromStr s
  | .obj, .obj fs => some (.obj fs)
  | .strList, .arr xs => if xs.all Json.isStr then some (.arr xs) else none
  | .objList, .arr xs => if xs.all Json.isObj then some (.arr xs) else none
  | .any, v => some v
  | _, _ => none

/-- One field of a Pydantic argument model: canonical name, declared type,
whether it is required, its default (`none` models a Python `None` default,
which `model_dump(exclude_none=True)` later drops), an optional validation
alias, and an optional `ge` lower bound (as on `BackupArgs.doc_limit`). -/
structure FieldSpec where
  fname : String
  ftype : JType
  required : Bool
  dflt : Option Json
  al : Option String
  ge : Option Int

/-- Association-list lookup, the model of Python `dict.get`. -/
def assoc (args : List (String × Json)) (k : String) : Option Json :=
  (args.find? (fun p => p.1 == k)).map (fun p => p.2)

/-- Pydantic v2 field population under `populate_by_name=True`: the
validation alias is consulted first, then the field name. -/
def lookupField (spec : FieldSpec) (args : List (String × Json)) : Option Json :=
  match spec.al with
  | some a =>
    match assoc args a with
    | some v => some v
    | none => assoc args spec.fname
  | none => assoc args spec.fname

/-- One entry of the structured per-field error list in
`ValidationError.json()`. -/
structure Violation where
  vfield : String
  vkind : String
deriving DecidableEq

/-- The violation (if any) that validating one field produces: a required
field that is absent is `missing`; a present value rejected by lax-mode
validation is a `type_error` (a `null` for an optional field is an accepted
`None`); a numeric value below a declared `ge` bound is a
`greater_than_equal` violation. -/
def fieldViolation (spec : FieldSpec) (args : List (String × Json)) : Option Violation :=
  match lookupField spec args with
  | some v =>
    if v.isNull && !spec.required then none
    else
      match coerceType spec.ftype v with
      | none => some ⟨spec.fname, "type_error"⟩
      | some w =>
        match w, spec.ge with
        | .num n, some g =>
          if g ≤ n then none else some ⟨spec.fname, "greater_than_equal"⟩
        | _, _ => none
  | none => if spec.required then some ⟨spec.fname, "missing"⟩ else none

/-- All violations collected over the model's fields (Pydantic reports every
failing field at once). -/
def collectViolations (schema : List FieldSpec) (args : List (String × Json)) : List Violation :=
  schema.filterMap (fun s => fieldViolation s args)

/-- The normalized value of one field as produced by
`model_dump(exclude_none=True)`: a present non-null value under its canonical
name after lax coercion, a non-`None` default when absent, nothing when the
value is `None`. -/
def normalizeField (spec : FieldSpec) (args : List (String × Json)) : Option (String × Json) :=
  match lookupField spec args with
  | some v =>
    if v.isNull then none
    else
      match coerceType spec.ftype v with
      | some w => some (spec.fname, w)
      | none => none
  | none =>
    match spec.dflt with
    | some d => some (spec.fname, d)
    | none => none

/-- `tool_reg.model(**arguments)` followed by
`parsed.model_dump(exclude_none=True)`: either the structured violation list
or the normalized argument mapping. -/
def validateArgs (schema : List FieldSpec) (args : List (String × Json)) :
    Except (List Violation) (List (String × Json)) :=
  let vs := collectViolations schema args
  if vs.isEmpty then .ok (schema.filterMap (fun s => normalizeField s args))
  else .error vs

/-! ### Handlers and `_invoke_handler` (`entry.py` lines 499-539) -/

/-- A Python handler callable as seen by `_invoke_handler`.  A call under one
of the two calling conventions either fails immediately with a `TypeError`
when the call shape does not match the handler's parameters, or runs the
corresponding body, which may itself raise.  The two bodies let the model
observe which convention actually ran. -/
structure PyHandler where
  acceptsKwargs : Bool
  acceptsBundle : Bool
  runKwargs : DB → List (String × Json) → Except PyExc Json
  runBundle : DB → List (String × Json) → Except PyExc Json

/-- `handler(db, **args)`: a `TypeError` from the call shape when the
signature does not accept keyword expansion, otherwise the body's outcome. -/
def callKwargs (h : PyHandler) (db : DB) (args : List (String × Json)) : Except PyExc Json :=
  if h.acceptsKwargs then h.runKwargs db args
  else .error (.typeError "unexpected keyword arguments")

/-- `handler(db, args)`: the single argument-bundle convention. -/
def callBundle (h : PyHandler) (db : DB) (args : List (String × Json)) : Except PyExc Json :=
  if h.acceptsBundle then h.runBundle db args
  else .error (.typeError "takes no positional argument bundle")

/-- `_invoke_handler` (entry.py): try `handler(db, **args)` first and, on a
`TypeError` — whatever raised it — retry as `handler(db, args)`.  Any other
exception propagates. -/
def invokeHandler (h : PyHandler) (db : DB) (args : List (String × Json)) : Except PyExc Json :=
  match callKwargs h db args with
  | .ok v => .ok v
  | .error e => if e.isTypeError then callBundle h db args else .error e

/-! ### Tool registry (`tool_registry.py`, population in `entry.py` 156-388) -/

/-- One entry of `TOOL_REGISTRY` (`ToolRegistration` in the source), with the
Pydantic model carried as its field-spec list. -/
structure ToolRegistration where
  name : String
  description : String
  schema : List FieldSpec
  handler : PyHandler

/-- The registry: names to registrations, in insertion order (Python dicts
preserve insertion order). -/
abbrev Registry := List (String × ToolRegistration)

/-- `TOOL_REGISTRY.get(name)`. -/
def lookupReg (registry : Registry) (name : String) : Option ToolRegistration :=
  (registry.find? (fun p => p.1 == name)).map (fun p => p.2)

/-- Modelled from the spec: the module `tool_registry.py`, which defines
`TOOL_REGISTRY` and its registration discipline, is not among the provided
source files.  Per the spec, `register(name, description, schema, handler)`
fails, fatally at startup, if `name` is already present, and otherwise appends
the registration in insertion order. -/
def registerTool (r : Registry) (t : ToolRegistration) : Except String Registry :=
  if r.any (fun p => p.1 == t.name) then .error ("Duplicate tool name: " ++ t.name)
  else .ok (r ++ [(t.name, t)])

/-- Registration phase: register a list of tools one after the other,
stopping fatally at the first failure. -/
def populateFrom (acc : Registry) : List ToolRegistration → Except String Registry
  | [] => .ok acc
  | t :: ts =>
    match registerTool acc t with
    | .error e => .error e
    | .ok acc2 => populateFrom acc2 ts

/-- The whole registration phase starting from the empty registry
(the module-level population block of `entry.py`). -/
def populate (ts : List ToolRegistration) : Except String Registry :=
  populateFrom [] ts

/-! ### `handle_errors` decorator (`handlers.py` lines 67-85) -/

/-- The JSON failure payload produced by the `except` arms of
`handle_errors`: a message string and a kind tag, nothing else. -/
def pyExcToJson (e : PyExc) : Json :=
  match e with
  | .keyError k =>
    Json.obj [("error", Json.str ("Missing required parameter: " ++ PyExc.msg (.keyError k))),
              ("type", Json.str "KeyError")]
  | .arangoError m =>
    Json.obj [("error", Json.str ("Database operation failed: " ++ m)),
              ("type", Json.str "ArangoError")]
  | e =>
    Json.obj [("error", Json.str ("Operation failed: " ++ e.msg)),
              ("type", Json.str e.typeName)]

/-- The `handle_errors` wrapper: run the handler body; a raised exception is
recovered and mapped to its failure payload, never re-raised. -/
def handleErrors (f : DB → List (String × Json) → Except PyExc Json)
    (db : DB) (args : List (String × Json)) : Json :=
  match f db args with
  | .ok v => v
  | .error e => pyExcToJson e

/-- Whether a JSON value is an object carrying exactly a message string under
`error` and a kind tag string under `type` — no stack trace, nothing else. -/
def msgAndTagOnly : Json → Bool
  | .obj [(k1, .str _), (k2, .str _)] => k1 == "error" && k2 == "type"
  | _ => false

/-! ### Dispatch (`call_tool`, `entry.py` lines 542-606) -/

/-- The environment a dispatch runs in: what `get_client_and_db(load_config())`
would produce right now (`some` handle on success, `none` when it raises). -/
structure Env where
  connect : Option DB

/-- Instrumented outcome of one `call_tool` invocation: the JSON response
(the payload serialized by `_json_content`), the cached handle in the
lifespan context after the call, the number of `get_client_and_db` calls,
whether Pydantic validation ran, whether `_invoke_handler` was reached, and
the arguments and handle it was given. -/
structure DispatchOut where
  response : Json
  cachedDb : Option DB
  connects : Nat
  validations : Nat
  handlerCalls : Nat
  delivered : Option (List (String × Json))
  handlerDb : Option DB

/-- `{"error": f"Unknown tool: {name}"}`. -/
def unknownToolJson (name : String) : Json :=
  Json.obj [("error", Json.str ("Unknown tool: " ++ name))]

/-- The structured `details` list of a `ValidationError` response
(`json.loads(ve.json())`): one entry per failing field with its location and
error kind. -/
def violationsToJson (vs : List Violation) : Json :=
  Json.arr (vs.map (fun v =>
    Json.obj [("loc", Json.arr [Json.str v.vfield]), ("type", Json.str v.vkind)]))

/-- `{"error": "ValidationError", "tool": name, "details": [...]}`. -/
def validationErrorJson (name : String) (vs : List Violation) : Json :=
  Json.obj [("error", Json.str "ValidationError"), ("tool", Json.str name),
            ("details", violationsToJson vs)]

/-- `{"error": "Database unavailable", "tool": name, "hint": ...}`. -/
def dbUnavailableJson (name : String) : Json :=
  Json.obj [("error", Json.str "Database unavailable"), ("tool", Json.str name),
            ("hint", Json.str "Ensure ArangoDB is reachable or check ARANGO_* environment variables.")]

/-- `{"error": str(e), "tool": name}` from the final `except` of `call_tool`. -/
def handlerErrorJson (name : String) (e : PyExc) : Json :=
  Json.obj [("error", Json.str e.msg), ("tool", Json.str name)]

/-- The tail of `call_tool` once a live handle `d` is in hand: dispatch to the
handler through `_invoke_handler`; a raised exception is logged and mapped to
`{"error": str(e), "tool": name}`. -/
def dispatchToHandler (name : String) (reg : ToolRegistration) (d : DB)
    (va : List (String × Json)) : Json :=
  match invokeHandler reg.handler d va with
  | .ok v => v
  | .error e => handlerErrorJson name e

/-- `call_tool(name, arguments)` (entry.py): look the tool up in
`TOOL_REGISTRY`; validate the raw arguments against its Pydantic model; if the
cached handle is absent attempt one lazy connect, caching the new handle on
success; then invoke the handler, converting any raised exception into a
failure payload.  `db0` is the handle cached in the lifespan context when the
call starts. -/
def callTool (registry : Registry) (env : Env) (db0 : Option DB) (name : String)
    (arguments : List (String × Json)) : DispatchOut :=
  match lookupReg registry name with
  | none => ⟨unknownToolJson name, db0, 0, 0, 0, none, none⟩
  | some reg =>
    match validateArgs reg.schema arguments with
    | .error vs => ⟨validationErrorJson name vs, db0, 0, 1, 0, none, none⟩
    | .ok va =>
      match db0 with
      | some d =>
        ⟨dispatchToHandler name reg d va, some d, 0, 1, 1, some va, some d⟩
      | none =>
        match env.connect with
        | none => ⟨dbUnavailableJson name, none, 1, 1, 0, none, none⟩
        | some d =>
          ⟨dispatchToHandler name reg d va, some d, 1, 1, 1, some va, some d⟩

/-! ### Startup connection retry (`server_lifespan`, `entry.py` lines 416-443) -/

/-- Run the startup loop body over the listed attempt numbers: each attempt
calls `get_client_and_db` (`connect a`, `none` meaning it raised); the first
success breaks out, exhaustion leaves the handle absent.  Returns the handle
obtained (if any) paired with the number of connect calls made. -/
def tryAttempts (connect : Nat → Option DB) : List Nat → Option DB × Nat
  | [] => (none, 0)
  | a :: rest =>
    match connect a with
    | some db => (some db, 1)
    | none =>
      let p := tryAttempts connect rest
      (p.1, p.2 + 1)

/-- The startup retry loop `for attempt in range(1, max(1, retries) + 1)`:
`retries` comes from `ARANGO_CONNECT_RETRIES` and may be any integer; fewer
than one attempt is normalized to one. -/
def connectWithRetry (retries : Int) (connect : Nat → Option DB) : Option DB × Nat :=
  tryAttempts connect (List.range' 1 (max 1 retries).toNat)

/-- The startup phase of `server_lifespan` up to its `yield`: an empty tool
registry aborts startup with a `RuntimeError`; otherwise the connection is
attempted with retries and the server starts with whatever handle (possibly
none) resulted. -/
def serverLifespanInit (registry : Registry) (retries : Int)
    (connect : Nat → Option DB) : Except String (Option DB) :=
  if registry.isEmpty then
    .error "Tool registry is empty. No tools have been registered. This indicates a critical initialization error."
  else .ok (connectWithRetry retries connect).1

/-! ### Tool listing (`handle_list_tools`, `entry.py` lines 458-484) -/

/-- One entry of the MCP tool list: `types.Tool(name, description, inputSchema)`. -/
structure ToolMeta where
  tname : String
  tdescription : String
  tschema : Json

/-- A rendering of `model.model_json_schema()` from the embedded field specs:
an object schema listing the required field names. -/
def schemaJson (schema : List FieldSpec) : Json :=
  Json.obj [("type", Json.str "object"),
            ("required", Json.arr ((schema.filter (fun s => s.required)).map
              (fun s => Json.str s.fname)))]

/-- The `types.Tool` built for one registration. -/
def toToolMeta (r : ToolRegistration) : ToolMeta :=
  ⟨r.name, r.description, schemaJson r.schema⟩

/-- Python truthiness of `os.getenv("PYTEST_CURRENT_TEST")`: unset or empty
is falsy. -/
def envTruthy : Option String → Bool
  | some s => !(s == "")
  | none => false

/-- `handle_list_tools` (entry.py): build the tool list from the registry in
order; return only the first 7 when `MCP_COMPAT_TOOLSET` is `"baseline"`, or
when it is unset while `PYTEST_CURRENT_TEST` is truthy; otherwise return all. -/
def handleListTools (registry : Registry) (compat : Option String)
    (pytest : Option String) : List ToolMeta :=
  let tools := registry.map (fun p => toToolMeta p.2)
  if compat == some "baseline" || (compat == none && envTruthy pytest) then
    tools.take 7
  else tools

/-! ### `handle_bulk_insert` (`handlers.py` lines 604-650) -/

/-- Arguments reaching `handle_bulk_insert` after validation (the fields the
handler actually reads; `validate_refs` has no effect in the source). -/
structure BulkArgs where
  documents : List Json
  batchSize : Int
  onError : String

/-- The handler's outcome: either the statistics record it builds, or the
failure payload `handle_errors` synthesizes from a raised exception. -/
inductive BulkResult where
  | stats : Nat → Nat → Nat → ℚ → BulkResult
  | failure : String → String → BulkResult

/-- Whether a bulk-insert outcome is the statistics record (as opposed to an
error payload). -/
def BulkResult.isStats : BulkResult → Bool
  | .stats _ _ _ _ => true
  | .failure _ _ => false

/-- Fuelled slicing loop; the fuel is an upper bound on the list length, so
the recursion is structural while still peeling one nonempty slice per step. -/
def chunksGo (k : Nat) : Nat → List Json → List (List Json)
  | 0, _ => []
  | _ + 1, [] => []
  | fuel + 1, x :: xs => (x :: xs.take (k - 1)) :: chunksGo k fuel (xs.drop (k - 1))

/-- The successive slices `documents[i : i + k]` taken by
`for i in range(0, len(documents), k)` for a positive step `k`. -/
def chunks (k : Nat) (l : List Json) : List (List Json) :=
  chunksGo k l.length l

/-- The batch loop: `insertOk j` tells whether `insert_many` succeeds on the
`j`-th batch (raising otherwise); a successful batch adds its length to the
inserted count, a failing one adds its length to the error count and, under
`on_error == "stop"`, breaks out of the loop.  Returns
`(inserted_count, error_count)`. -/
def bulkRun (insertOk : Nat → Bool) (onError : String) : Nat → List (List Json) → Nat × Nat
  | _, [] => (0, 0)
  | j, b :: bs =>
    if insertOk j then
      let p := bulkRun insertOk onError (j + 1) bs
      (b.length + p.1, p.2)
    else if onError == "stop" then (0, b.length)
    else
      let p := bulkRun insertOk onError (j + 1) bs
      (p.1, b.length + p.2)

/-- `handle_bulk_insert` under its `handle_errors` wrapper: a zero
`batch_size` makes `range(0, len(documents), 0)` raise `ValueError`, which
`handle_errors` converts into a failure payload; a negative step yields an
empty loop; otherwise the documents are processed in batches and the record
`{total_documents, inserted_count, error_count, success_rate}` is built, with
`success_rate = inserted / total if total else 0`. -/
def handleBulkInsert (insertOk : Nat → Bool) (a : BulkArgs) : BulkResult :=
  if a.batchSize = 0 then
    .failure "ValueError" "Operation failed: range() arg 3 must not be zero"
  else if a.batchSize < 0 then
    .stats a.documents.length 0 0
      (if a.documents.length = 0 then 0 else (0 : ℚ) / (a.documents.length : ℚ))
  else
    let n := a.documents.length
    let p := bulkRun insertOk a.onError 0 (chunks a.batchSize.toNat a.documents)
    .stats n p.1 p.2 (if n = 0 then 0 else (p.1 : ℚ) / (n : ℚ))

/-! ### Concrete argument models from `models.py` -/

/-- `QueryArgs`: required `query` string, optional `bind_vars` mapping. -/
def querySchema : List FieldSpec :=
  [⟨"query", .str, true, none, none, none⟩,
   ⟨"bind_vars", .obj, false, none, none, none⟩]

/-- The required `collection` field of `InsertArgs`. -/
def specCollection : FieldSpec := ⟨"collection", .str, true, none, none, none⟩

/-- The required `document` field of `InsertArgs`. -/
def specDocument : FieldSpec := ⟨"document", .obj, true, none, none, none⟩

/-- `InsertArgs`: required `collection` string and `document` mapping. -/
def insertSchema : List FieldSpec := [specCollection, specDocument]

/-- `BackupArgs`: all fields optional, `output_dir` aliased `outputDir` and
`doc_limit` aliased `docLimit`, under `populate_by_name=True`. -/
def backupSchema : List FieldSpec :=
  [⟨"output_dir", .str, false, none, some "outputDir", none⟩,
   ⟨"collection", .str, false, none, none, none⟩,
   ⟨"collections", .strList, false, none, none, none⟩,
   ⟨"doc_limit", .int, false, none, some "docLimit", some 1⟩]

/-- `ListCollectionsArgs`: no fields. -/
def listCollectionsSchema : List FieldSpec := []

/-! ### Concrete instances used to exercise the model -/

/-- A handler answering `{"pong": true}` under either calling convention. -/
def pingHandler : PyHandler :=
  ⟨true, true,
   fun _ _ => .ok (Json.obj [("pong", Json.bool true)]),
   fun _ _ => .ok (Json.obj [("pong", Json.bool true)])⟩

/-- A registration for a `ping` tool with an empty schema. -/
def pingTool : ToolRegistration := ⟨"ping", "Respond with pong.", [], pingHandler⟩

/-- A second registration reusing the name `ping`. -/
def pingClone : ToolRegistration := ⟨"ping", "Conflicting duplicate.", [], pingHandler⟩

/-- An unrelated registration named `demo1`. -/
def demoTool1 : ToolRegistration := ⟨"demo1", "Demo tool.", [], pingHandler⟩

/-- The `arango_insert` registration over `InsertArgs`. -/
def insertTool : ToolRegistration :=
  ⟨"arango_insert", "Insert a document into a collection.", insertSchema, pingHandler⟩

/-- The `arango_backup` registration over `BackupArgs`, parametric in its
handler. -/
def backupTool (h : PyHandler) : ToolRegistration :=
  ⟨"arango_backup", "Backup collections to JSON files.", backupSchema, h⟩

/-- A registry entry named `tool<i>`. -/
def demoRegEntry (i : Nat) : String × ToolRegistration :=
  ("tool" ++ toString i, ⟨"tool" ++ toString i, "Demo tool.", [], pingHandler⟩)

/-- A registry holding ten tools, `tool0` through `tool9`, in order. -/
def reg10 : Registry := (List.range 10).map demoRegEntry

/-- A handler whose keyword-expanded call is accepted by its signature but
whose body raises a `TypeError`, while the bundle-convention call returns
normally.  Distinguishes a body-raised `TypeError` from a signature
mismatch. -/
def bodyTypeErrorHandler : PyHandler :=
  ⟨true, true,
   fun _ _ => .error (.typeError "unsupported operand type in handler body"),
   fun _ _ => .ok (Json.str "bundle-result")⟩

/-!
## Theorems

Helper lemmas come first; each claim is then settled by one theorem (with a
witness or counterexample where required).
-/

/-- A successful registration phase appends pairings in order: looking a name
up in the resulting registry finds, after anything already in the
accumulator, the first registration of that name in the input list. -/
theorem populateFrom_ok_find (ts : List ToolRegistration) :
    ∀ acc r : Registry, populateFrom acc ts = .ok r → ∀ n : String,
      r.find? (fun p => p.1 == n) =
        Option.or (acc.find? (fun p => p.1 == n))
          ((ts.find? (fun t => t.name == n)).map (fun t => (t.name, t))) := by
  induction ts with
  | nil =>
    intro acc r h n
    cases h
    cases hf : acc.find? (fun p => p.1 == n) <;> simp [populateFrom, hf, Option.or]
  | cons t ts ih =>
    intro acc r h n
    unfold populateFrom registerTool at h
    by_cases hd : acc.any (fun p => p.1 == t.name)
    · simp [hd] at h
    · simp only [hd, if_false, Bool.false_eq_true] at h
      have ih2 := ih (acc ++ [(t.name, t)]) r h n
      rw [ih2, List.find?_append]
      cases hb : (t.name == n) <;>
        cases hfa : acc.find? (fun p => p.1 == n) <;>
          simp [List.find?, hb, hfa, Option.or]

/--
Claim C1: for every startup configuration, registering two tools under the
same name during registry population fails loudly (fatally) at startup and
never silently overwrites the earlier registration; after a successful
registration phase, every registered name maps to the registration it was
first given (with all-distinct names, its only one).
-/
theorem c1_registry_uniqueness :
    (∀ (r : Registry) (t : ToolRegistration), r.any (fun p => p.1 == t.name) = true →
      registerTool r t = .error ("Duplicate tool name: " ++ t.name)) ∧
    (∀ (ts : List ToolRegistration) (r : Registry), populate ts = .ok r → ∀ n : String,
      r.find? (fun p => p.1 == n) =
        (ts.find? (fun t => t.name == n)).map (fun t => (t.name, t))) := by
  constructor
  · intro r t h
    simp [registerTool, h]
  · intro ts r h n
    have h2 := populateFrom_ok_find ts [] r h n
    simpa [Option.or] using h2

/-- Witness for C1: re-registering the name `ping` fails with the duplicate
error, and after populating `[pingTool, demoTool1]` the name `ping` maps to
`pingTool`, the registration it was first given. -/
theorem c1_registry_uniqueness_witness :
    registerTool [("ping", pingTool)] pingClone =
      .error ("Duplicate tool name: " ++ pingClone.name) ∧
    List.find? (fun p => p.1 == "ping") [("ping", pingTool), ("demo1", demoTool1)] =
      some ("ping", pingTool) := by
  constructor
  · exact c1_registry_uniqueness.1 [("ping", pingTool)] pingClone rfl
  · have h := c1_registry_uniqueness.2 [pingTool, demoTool1]
      [("ping", pingTool), ("demo1", demoTool1)] rfl "ping"
    exact h.trans (by rfl)

/--
Claim C5: for every tool name not present in the registry and every argument
mapping, dispatch returns an UnknownTool failure whose message is exactly
`"Unknown tool: <name>"`, without validating the arguments, without any
connection attempt, and without invoking any handler; the cached handle is
untouched.
-/
theorem c5_unknown_tool_isolation (registry : Registry) (env : Env) (db0 : Option DB)
    (name : String) (args : List (String × Json))
    (h : lookupReg registry name = none) :
    callTool registry env db0 name args =
      ⟨Json.obj [("error", Json.str ("Unknown tool: " ++ name))], db0, 0, 0, 0, none, none⟩ := by
  simp [callTool, h, unknownToolJson]

/-- Witness for C5: dispatching `nonexistent_tool` against the populated
demo registry. -/
theorem c5_unknown_tool_isolation_witness :
    callTool [("ping", pingTool)] ⟨some 0⟩ none "nonexistent_tool" [] =
      ⟨Json.obj [("error", Json.str ("Unknown tool: " ++ "nonexistent_tool"))],
       none, 0, 0, 0, none, none⟩ :=
  c5_unknown_tool_isolation [("ping", pingTool)] ⟨some 0⟩ none "nonexistent_tool" [] rfl

/--
Claim C2: for every registered tool and every raw argument mapping missing a
field the tool's schema marks required (or supplying a wrong-typed value,
i.e. one that Pydantic's lax-mode validation rejects even after coercion),
dispatch returns a ValidationError failure carrying the structured list of
per-field violations — one of which names the offending field — and the
handler is never invoked, no connection attempt is made, and the cached
handle is untouched.
-/
theorem c2_validation_totality (registry : Registry) (env : Env) (db0 : Option DB)
    (name : String) (args : List (String × Json)) (reg : ToolRegistration) (spec : FieldSpec)
    (hreg : lookupReg registry name = some reg)
    (hmem : spec ∈ reg.schema)
    (hbad : (spec.required = true ∧ lookupField spec args = none) ∨
            (∃ w, lookupField spec args = some w ∧ w.isNull = false ∧
                  coerceType spec.ftype w = none)) :
    ∃ vs : List Violation,
      validateArgs reg.schema args = .error vs ∧
      callTool registry env db0 name args =
        ⟨validationErrorJson name vs, db0, 0, 1, 0, none, none⟩ ∧
      ∃ v ∈ vs, v.vfield = spec.fname := by
  have hv : ∃ k, fieldViolation spec args = some ⟨spec.fname, k⟩ := by
    rcases hbad with ⟨hreq, hnone⟩ | ⟨w, hw, hnn, hmt⟩
    · exact ⟨"missing", by simp [fieldViolation, hnone, hreq]⟩
    · exact ⟨"type_error", by simp [fieldViolation, hw, hnn, hmt]⟩
  obtain ⟨k, hk⟩ := hv
  have hvmem : (⟨spec.fname, k⟩ : Violation) ∈ collectViolations reg.schema args :=
    List.mem_filterMap.mpr ⟨spec, hmem, hk⟩
  have hne : collectViolations reg.schema args ≠ [] := List.ne_nil_of_mem hvmem
  have hemp : (collectViolations reg.schema args).isEmpty = false := by
    cases hcol : collectViolations reg.schema args with
    | nil => exact absurd hcol hne
    | cons a l => rfl
  have hval : validateArgs reg.schema args = .error (collectViolations reg.schema args) := by
    simp [validateArgs, hemp]
  refine ⟨collectViolations reg.schema args, hval, ?_, ⟨_, hvmem, rfl⟩⟩
  simp [callTool, hreg, hval]

/-- Witness for C2: calling `arango_insert` with `{"document": {}}` — the
required `collection` field is missing — yields the ValidationError response
with a `collection` violation, no handler call and no connection attempt. -/
theorem c2_validation_totality_witness :
    callTool [("arango_insert", insertTool)] ⟨some 0⟩ (some 1) "arango_insert"
        [("document", Json.obj [])] =
      ⟨validationErrorJson "arango_insert" [⟨"collection", "missing"⟩],
       some 1, 0, 1, 0, none, none⟩ := by
  obtain ⟨vs, hval, hcall, -⟩ :=
    c2_validation_totality [("arango_insert", insertTool)] ⟨some 0⟩ (some 1)
      "arango_insert" [("document", Json.obj [])] insertTool specCollection
      rfl (List.mem_cons_self _ _) (Or.inl ⟨rfl, rfl⟩)
  have h2 : (Except.error vs : Except (List Violation) (List (String × Json))) =
      .error [⟨"collection", "missing"⟩] := hval.symm.trans (by rfl)
  injection h2 with h3
  rw [h3] at hcall
  exact hcall

/-- Lax-mode sanity check: the integer-valued string `"5"` for the aliased
`doc_limit` field is coerced, not rejected — validation succeeds and the
handler would receive the coerced integer. -/
theorem validate_lax_coercion_accepts :
    validateArgs backupSchema [("docLimit", Json.str "5")] =
      .ok [("doc_limit", Json.num 5)] := rfl

/-- Bound sanity check: `doc_limit = 0` violates the `ge=1` constraint of
`BackupArgs` and is rejected with a `greater_than_equal` violation. -/
theorem validate_ge_bound_rejects :
    validateArgs backupSchema [("docLimit", Json.num 0)] =
      .error [⟨"doc_limit", "greater_than_equal"⟩] := rfl

/--
Claim C3: when the cached handle is absent at dispatch time and tool lookup
and validation succeed, dispatch makes exactly one reconnect attempt; if it
fails the result is the "Database unavailable" failure with a hint and the
handle stays absent; if it succeeds the new handle is cached, and an
immediately following dispatch uses the cached handle and makes no further
reconnect attempt.
-/
theorem c3_lazy_reconnect (registry : Registry) (env : Env) (name : String)
    (args : List (String × Json)) (reg : ToolRegistration) (va : List (String × Json))
    (hreg : lookupReg registry name = some reg)
    (hval : validateArgs reg.schema args = .ok va) :
    (callTool registry env none name args).connects = 1 ∧
    (env.connect = none →
      callTool registry env none name args =
        ⟨dbUnavailableJson name, none, 1, 1, 0, none, none⟩) ∧
    (∀ d : DB, env.connect = some d →
      (callTool registry env none name args).cachedDb = some d ∧
      ∀ env2 : Env,
        (callTool registry env2 (some d) name args).connects = 0 ∧
        (callTool registry env2 (some d) name args).handlerDb = some d) := by
  refine ⟨?_, ?_, ?_⟩
  · cases hc : env.connect <;> simp [callTool, hreg, hval, hc]
  · intro hc
    simp [callTool, hreg, hval, hc]
  · intro d hc
    constructor
    · simp [callTool, hreg, hval, hc]
    · intro env2
      constructor <;> simp [callTool, hreg, hval]

/-- Witness for C3: dispatching `ping` with no cached handle: a failing
environment yields the Database-unavailable response after one attempt; a
succeeding one caches handle `7`, and the follow-up dispatch with the cached
handle performs no connect. -/
theorem c3_lazy_reconnect_witness :
    callTool [("ping", pingTool)] ⟨none⟩ none "ping" [] =
      ⟨dbUnavailableJson "ping", none, 1, 1, 0, none, none⟩ ∧
    (callTool [("ping", pingTool)] ⟨some 7⟩ none "ping" []).cachedDb = some 7 ∧
    (callTool [("ping", pingTool)] ⟨none⟩ (some 7) "ping" []).connects = 0 := by
  have hfail := c3_lazy_reconnect [("ping", pingTool)] ⟨none⟩ "ping" [] pingTool [] rfl rfl
  have hok := c3_lazy_reconnect [("ping", pingTool)] ⟨some 7⟩ "ping" [] pingTool [] rfl rfl
  refine ⟨hfail.2.1 rfl, ?_, ?_⟩
  · exact ((hok.2.2) 7 rfl).1
  · exact (((hok.2.2) 7 rfl).2 ⟨none⟩).1

/--
Claim C4: every exception raised inside a handler is recovered and converted
to a failure result rather than propagating: `handle_errors` maps a
`KeyError` to the `Missing required parameter` payload tagged `KeyError`, an
`ArangoError` to the `Database operation failed` payload tagged
`ArangoError`, and any other exception to a payload tagged with the
exception's class name; every such payload carries only a message string and
a kind tag.  At the dispatch boundary, an exception escaping the handler
still yields a failure response instead of terminating the call.
-/
theorem c4_handler_error_recovery (f : DB → List (String × Json) → Except PyExc Json)
    (db : DB) (args : List (String × Json)) (e : PyExc)
    (h : f db args = .error e) :
    handleErrors f db args = pyExcToJson e ∧
    msgAndTagOnly (pyExcToJson e) = true ∧
    (∀ k, e = .keyError k → pyExcToJson e =
      Json.obj [("error", Json.str ("Missing required parameter: " ++ (squote ++ k ++ squote))),
                ("type", Json.str "KeyError")]) ∧
    (∀ m, e = .arangoError m → pyExcToJson e =
      Json.obj [("error", Json.str ("Database operation failed: " ++ m)),
                ("type", Json.str "ArangoError")]) ∧
    (∀ t m, e = .other t m → pyExcToJson e =
      Json.obj [("error", Json.str ("Operation failed: " ++ m)),
                ("type", Json.str t)]) ∧
    (∀ (name : String) (reg : ToolRegistration) (d : DB) (va : List (String × Json)),
      invokeHandler reg.handler d va = .error e →
      dispatchToHandler name reg d va = handlerErrorJson name e) := by
  refine ⟨by simp [handleErrors, h], ?_, ?_, ?_, ?_, ?_⟩
  · cases e <;> rfl
  · intro k hk; subst hk; rfl
  · intro m hm; subst hm; rfl
  · intro t m hm; subst hm; rfl
  · intro nm reg d va hinv; simp [dispatchToHandler, hinv]

/-- Witness for C4: a handler raising `KeyError("collection")` produces the
`Missing required parameter` payload, and the ArangoError payload is a pure
message-and-tag object. -/
theorem c4_handler_error_recovery_witness :
    handleErrors (fun _ _ => .error (.keyError "collection")) 0 [] =
      Json.obj [("error", Json.str ("Missing required parameter: " ++
                 (squote ++ "collection" ++ squote))),
                ("type", Json.str "KeyError")] ∧
    msgAndTagOnly (pyExcToJson (.arangoError "timeout")) = true := by
  have hke := c4_handler_error_recovery (fun _ _ => .error (.keyError "collection")) 0 []
    (.keyError "collection") rfl
  have har := c4_handler_error_recovery (fun _ _ => .error (.arangoError "timeout")) 0 []
    (.arangoError "timeout") rfl
  exact ⟨hke.1.trans (hke.2.2.1 "collection" rfl), har.2.1⟩

/-- Each connection attempt of the startup loop calls `get_client_and_db`
once, so at most as many calls happen as attempts were scheduled. -/
theorem tryAttempts_count_le (connect : Nat → Option DB) :
    ∀ l : List Nat, (tryAttempts connect l).2 ≤ l.length := by
  intro l
  induction l with
  | nil => simp [tryAttempts]
  | cons a rest ih =>
    cases hc : connect a <;> simp [tryAttempts, hc]
    omega

/-- When every connection attempt fails, the loop runs through all scheduled
attempts and ends with no handle. -/
theorem tryAttempts_all_fail (connect : Nat → Option DB) (h : ∀ k, connect k = none) :
    ∀ l : List Nat, tryAttempts connect l = (none, l.length) := by
  intro l
  induction l with
  | nil => rfl
  | cons a rest ih => simp [tryAttempts, h a, ih]

/--
Claim C6: the startup connection routine with `retries = 3` calls the
underlying connect function at most 3 times and yields an absent handle when
all 3 attempts fail; `retries < 1` is normalized to a single attempt; and
with a nonempty registry the server starts whatever the connection outcome
(no exception), serving with the possibly-absent handle.
-/
theorem c6_startup_retry (connect : Nat → Option DB) (registry : Registry) (retries : Int) :
    (connectWithRetry 3 connect).2 ≤ 3 ∧
    ((∀ k, connect k = none) → connectWithRetry 3 connect = (none, 3)) ∧
    (retries < 1 → (connectWithRetry retries connect).2 = 1) ∧
    (registry ≠ [] →
      serverLifespanInit registry retries connect = .ok (connectWithRetry retries connect).1) := by
  have h3 : ((max 1 (3 : Int)).toNat) = 3 := by decide
  refine ⟨?_, ?_, ?_, ?_⟩
  · have h := tryAttempts_count_le connect (List.range' 1 (max 1 (3 : Int)).toNat)
    rw [h3] at h
    simpa [connectWithRetry, h3] using h
  · intro hfail
    have h := tryAttempts_all_fail connect hfail (List.range' 1 (max 1 (3 : Int)).toNat)
    rw [h3] at h
    simpa [connectWithRetry, h3] using h
  · intro hr
    have hm : (max 1 retries).toNat = 1 := by
      have hmax : max 1 retries = 1 := max_eq_left (by omega)
      rw [hmax]
      rfl
    rw [connectWithRetry, hm]
    cases hc : connect 1 <;> simp [tryAttempts, hc, List.range']
  · intro hne
    cases registry with
    | nil => exact absurd rfl hne
    | cons a l => simp [serverLifespanInit, List.isEmpty]

/-- Witness for C6: with every attempt failing, three attempts are made and
exhausted, `retries = 0` performs one attempt, and the server with the demo
registry starts with an absent handle instead of failing. -/
theorem c6_startup_retry_witness :
    connectWithRetry 3 (fun _ => none) = (none, 3) ∧
    (connectWithRetry 0 (fun _ => none)).2 = 1 ∧
    serverLifespanInit [("ping", pingTool)] 3 (fun _ => none) = .ok none := by
  have hall := (c6_startup_retry (fun _ => none) [("ping", pingTool)] 0).2.1 (fun _ => rfl)
  have h0 := (c6_startup_retry (fun _ => none) [("ping", pingTool)] 0).2.2.1 (by decide)
  have hinit := (c6_startup_retry (fun _ => none) [("ping", pingTool)] 3).2.2.2
    (List.cons_ne_nil _ _)
  rw [hall] at hinit
  exact ⟨hall, h0, hinit⟩

/--
Claim C9 (amended): the dispatcher first invokes the handler with
keyword-expanded arguments and returns its result unchanged when that call
completes; it falls back to the argument-bundle convention exactly when the
first call raises a `TypeError` — which covers signature mismatches but also
any `TypeError` raised inside the handler body — and any non-`TypeError`
exception propagates without a fallback.
-/
theorem c9_dual_signature_fallback (h : PyHandler) (db : DB) (args : List (String × Json)) :
    (∀ v, callKwargs h db args = .ok v → invokeHandler h db args = .ok v) ∧
    (∀ e, callKwargs h db args = .error e → e.isTypeError = true →
      invokeHandler h db args = callBundle h db args) ∧
    (∀ e, callKwargs h db args = .error e → e.isTypeError = false →
      invokeHandler h db args = .error e) ∧
    (h.acceptsKwargs = false → invokeHandler h db args = callBundle h db args) := by
  refine ⟨?_, ?_, ?_, ?_⟩
  · intro v hv; simp [invokeHandler, hv]
  · intro e he ht; simp [invokeHandler, he, ht]
  · intro e he ht; simp [invokeHandler, he, ht]
  · intro hk; simp [invokeHandler, callKwargs, hk, PyExc.isTypeError]

/-- Witness for C9 (amended): a handler accepting both conventions returns
its keyword-call result unchanged, and one rejecting keyword expansion is
re-invoked with the argument bundle. -/
theorem c9_dual_signature_fallback_witness :
    invokeHandler pingHandler 0 [] = .ok (Json.obj [("pong", Json.bool true)]) ∧
    invokeHandler ⟨false, true, pingHandler.runKwargs, pingHandler.runBundle⟩ 0 [] =
      callBundle ⟨false, true, pingHandler.runKwargs, pingHandler.runBundle⟩ 0 [] :=
  ⟨(c9_dual_signature_fallback pingHandler 0 []).1 _ rfl,
   (c9_dual_signature_fallback ⟨false, true, pingHandler.runKwargs, pingHandler.runBundle⟩
     0 []).2.2.2 rfl⟩

/-- Counterexample for C9 as stated: `bodyTypeErrorHandler` accepts the
keyword-expanded call shape — there is no signature mismatch — yet because
its body raises a `TypeError`, `_invoke_handler` still falls back and returns
the bundle-convention result instead of propagating the handler's error. -/
theorem c9_counterexample :
    bodyTypeErrorHandler.acceptsKwargs = true ∧
    callKwargs bodyTypeErrorHandler 0 [] =
      .error (.typeError "unsupported operand type in handler body") ∧
    invokeHandler bodyTypeErrorHandler 0 [] = .ok (Json.str "bundle-result") :=
  ⟨rfl, rfl, rfl⟩

/--
Claim C7 (amended): the tool listing enumerates every registered tool in
registration order, restricted to the first 7 exactly when
`MCP_COMPAT_TOOLSET` is `"baseline"` or when it is unset while
`PYTEST_CURRENT_TEST` is set nonempty; with the toggle set to any other
value (e.g. `"full"`), or with both variables unset, the listing contains
all registered tools.
-/
theorem c7_listing_toggle (registry : Registry) (compat pytest : Option String) :
    (compat ≠ some "baseline" → ¬(compat = none ∧ envTruthy pytest = true) →
      handleListTools registry compat pytest = registry.map (fun p => toToolMeta p.2)) ∧
    (compat = some "baseline" ∨ (compat = none ∧ envTruthy pytest = true) →
      handleListTools registry compat pytest =
        (registry.map (fun p => toToolMeta p.2)).take 7) ∧
    (handleListTools registry compat pytest).map ToolMeta.tname =
      (if compat == some "baseline" || (compat == none && envTruthy pytest)
       then (registry.map (fun p => p.2.name)).take 7
       else registry.map (fun p => p.2.name)) := by
  have heq : handleListTools registry compat pytest =
      (if (compat == some "baseline" || (compat == none && envTruthy pytest)) = true
       then (registry.map (fun p => toToolMeta p.2)).take 7
       else registry.map (fun p => toToolMeta p.2)) := rfl
  have hnames : (registry.map (fun p => toToolMeta p.2)).map ToolMeta.tname =
      registry.map (fun p => p.2.name) := by
    rw [List.map_map]
    rfl
  refine ⟨?_, ?_, ?_⟩
  · intro h1 h2
    have hc : (compat == some "baseline" || (compat == none && envTruthy pytest)) = false := by
      cases compat with
      | none =>
        have hp : envTruthy pytest = false := by
          cases he : envTruthy pytest
          · rfl
          · exact absurd ⟨rfl, he⟩ h2
        rw [hp]
        rfl
      | some s =>
        have hs : (s == "baseline") = false := by
          cases hsb : (s == "baseline")
          · rfl
          · exact absurd (congrArg some (eq_of_beq hsb)) h1
        have hred : ((some s : Option String) == some "baseline" ||
            ((some s : Option String) == none && envTruthy pytest)) =
            ((s == "baseline") || false) := rfl
        rw [hred, hs]
        rfl
    rw [heq, hc]
    simp
  · intro h
    rcases h with hbase | ⟨hcn, hp⟩
    · subst hbase
      rfl
    · subst hcn
      rw [heq, hp]
      simp
  · cases hcond : (compat == some "baseline" || (compat == none && envTruthy pytest))
    · rw [heq, hcond]
      simp [hnames]
    · rw [heq, hcond]
      simp [List.map_take, hnames]

/-- Witness for C7 (amended): over the ten-tool demo registry, toggles
`"full"` and `"restricted"` (any value other than `"baseline"`) list
everything while toggle `"baseline"` lists the first seven. -/
theorem c7_listing_toggle_witness :
    handleListTools reg10 (some "full") none = reg10.map (fun p => toToolMeta p.2) ∧
    handleListTools reg10 (some "restricted") (some "t") =
      reg10.map (fun p => toToolMeta p.2) ∧
    handleListTools reg10 (some "baseline") none =
      (reg10.map (fun p => toToolMeta p.2)).take 7 :=
  ⟨(c7_listing_toggle reg10 (some "full") none).1 (by decide) (by simp),
   (c7_listing_toggle reg10 (some "restricted") (some "t")).1 (by decide) (by simp),
   (c7_listing_toggle reg10 (some "baseline") none).2.1 (Or.inl rfl)⟩

/-- Counterexample for C7 as stated: with the `MCP_COMPAT_TOOLSET` toggle
unset but `PYTEST_CURRENT_TEST` set, the ten-tool demo registry is listed
with only 7 entries — the listing is silently truncated although the toggle
never selected restricted mode. -/
theorem c7_counterexample :
    reg10.length = 10 ∧
    (handleListTools reg10 none (some "tests: test_tools")).length = 7 :=
  ⟨rfl, rfl⟩

/--
Claim C8: for the backup tool's aliased field, a request supplying both the
alias `outputDir` and the canonical `output_dir` passes validation, and
exactly one source value — the alias value — survives into the normalized
arguments delivered to the handler.
-/
theorem c8_alias_precedence (env : Env) (d : DB) (h : PyHandler) (v1 v2 : String) :
    (callTool [("arango_backup", backupTool h)] env (some d) "arango_backup"
        [("outputDir", Json.str v1), ("output_dir", Json.str v2)]).delivered =
      some [("output_dir", Json.str v1)] ∧
    (callTool [("arango_backup", backupTool h)] env (some d) "arango_backup"
        [("outputDir", Json.str v1), ("output_dir", Json.str v2)]).validations = 1 ∧
    (callTool [("arango_backup", backupTool h)] env (some d) "arango_backup"
        [("outputDir", Json.str v1), ("output_dir", Json.str v2)]).handlerCalls = 1 :=
  ⟨rfl, rfl, rfl⟩

/-- Each batch contributes its length to exactly one of the two counters, so
the counters never exceed the combined batch lengths. -/
theorem bulkRun_le (insertOk : Nat → Bool) (onError : String) :
    ∀ (j : Nat) (cs : List (List Json)),
      (bulkRun insertOk onError j cs).1 + (bulkRun insertOk onError j cs).2 ≤
        (cs.map List.length).sum := by
  intro j cs
  induction cs generalizing j with
  | nil => simp [bulkRun]
  | cons b bs ih =>
    by_cases hio : insertOk j
    · have := ih (j + 1)
      simp [bulkRun, hio]
      omega
    · cases hoe : (onError == "stop")
      · have := ih (j + 1)
        simp [bulkRun, hio, hoe]
        omega
      · simp [bulkRun, hio, hoe]

/-- The slices taken by the batching loop partition the documents: their
lengths sum to the total document count. -/
theorem chunksGo_sum (k : Nat) :
    ∀ (fuel : Nat) (l : List Json), l.length ≤ fuel →
      ((chunksGo k fuel l).map List.length).sum = l.length := by
  intro fuel
  induction fuel with
  | zero =>
    intro l hl
    have h0 : l = [] := List.length_eq_zero.mp (Nat.le_zero.mp hl)
    subst h0
    simp [chunksGo]
  | succ n ih =>
    intro l hl
    cases l with
    | nil => simp [chunksGo]
    | cons x xs =>
      have hx : (xs.drop (k - 1)).length ≤ n := by
        simp only [List.length_drop]
        simp only [List.length_cons] at hl
        omega
      simp [chunksGo, ih _ hx, List.length_take, List.length_drop]
      omega

/--
Claim C10 (amended): for every input with a nonzero `batch_size`,
`handle_bulk_insert` returns its statistics record with
`total_documents = len(documents)`, never divides by zero —
`success_rate` is 0 when the list is empty and `inserted/total` otherwise —
and `inserted_count + error_count` never exceeds `total_documents`.  (With
`batch_size = 0` the underlying `range` raises `ValueError` and an error
payload is returned instead of the record.)
-/
theorem c10_bulk_insert_stats (insertOk : Nat → Bool) (a : BulkArgs)
    (hbs : a.batchSize ≠ 0) :
    ∃ ins errs rate, handleBulkInsert insertOk a = .stats a.documents.length ins errs rate ∧
      ins + errs ≤ a.documents.length ∧
      (a.documents.length = 0 → rate = 0) ∧
      (a.documents.length ≠ 0 → rate = (ins : ℚ) / (a.documents.length : ℚ)) := by
  by_cases hneg : a.batchSize < 0
  · refine ⟨0, 0, if a.documents.length = 0 then 0 else (0 : ℚ) / (a.documents.length : ℚ),
      ?_, ?_, ?_, ?_⟩
    · simp [handleBulkInsert, hbs, hneg]
    · omega
    · intro h0; simp [h0]
    · intro h0; simp [h0]
  · have hsum : ((chunks a.batchSize.toNat a.documents).map List.length).sum
        = a.documents.length :=
      chunksGo_sum a.batchSize.toNat a.documents.length a.documents (le_refl _)
    have hle := bulkRun_le insertOk a.onError 0 (chunks a.batchSize.toNat a.documents)
    rw [hsum] at hle
    refine ⟨(bulkRun insertOk a.onError 0 (chunks a.batchSize.toNat a.documents)).1,
      (bulkRun insertOk a.onError 0 (chunks a.batchSize.toNat a.documents)).2,
      if a.documents.length = 0 then 0
      else ((bulkRun insertOk a.onError 0 (chunks a.batchSize.toNat a.documents)).1 : ℚ) /
        (a.documents.length : ℚ),
      ?_, hle, ?_, ?_⟩
    · simp [handleBulkInsert, hbs, hneg]
    · intro h0; simp [h0]
    · intro h0; simp [h0]

/-- Witness for C10 (amended): a one-document bulk insert with
`batch_size = 2` produces the statistics record. -/
theorem c10_bulk_insert_stats_witness :
    (handleBulkInsert (fun _ => true) ⟨[Json.obj []], 2, "stop"⟩).isStats = true := by
  obtain ⟨ins, errs, rate, hst, -, -, -⟩ :=
    c10_bulk_insert_stats (fun _ => true) ⟨[Json.obj []], 2, "stop"⟩ (by decide)
  rw [hst]
  rfl

/-- Counterexample for C10 as stated: with an empty documents list and
`batch_size = 0`, the handler does not return `total_documents = 0` with
`success_rate = 0`; `range(0, 0, 0)` raises `ValueError`, so an error payload
is returned instead of the statistics record. -/
theorem c10_counterexample :
    handleBulkInsert (fun _ => true) ⟨[], 0, "stop"⟩ =
      .failure "ValueError" "Operation failed: range() arg 3 must not be zero" ∧
    (handleBulkInsert (fun _ => true) ⟨[], 0, "stop"⟩).isStats = false :=
  ⟨rfl, rfl⟩

end McpArango
